import Mathlib

/-!
Verification of `nemo_firecloud_client.py` (nemoarchive/firecloud-client).

The Python source is shallowly embedded: Python strings are Lean `String`s,
and the Python string operations used by the client (`split`, `startswith`,
`in`, `endswith`, `lower`, `join`, negative indexing) are modelled as
executable functions over the underlying character lists, matching CPython
semantics on the inputs the client handles (ASCII case folding).
Bytes are `Nat`s below 256; files and network payloads are `List Nat`.
Fallible Python code (uncaught exceptions) is modelled with `Option`.
-/

/-- Model of CPython `str.split(sep)` (non-empty `sep`), fuel-indexed so that
it is structurally recursive and kernel-reducible.  `current` is the reversed
accumulator of the piece being built. -/
def pySplitGo (sep : List Char) : Nat → List Char → List Char → List (List Char)
  | 0, current, _ => [current.reverse]
  | fuel + 1, current, l =>
    if sep.isPrefixOf l then
      current.reverse :: pySplitGo sep fuel [] (l.drop sep.length)
    else
      match l with
      | [] => [current.reverse]
      | c :: t => pySplitGo sep fuel (c :: current) t

/-- `pySplit s sep` models Python `s.split(sep)` for non-empty `sep`. -/
def pySplit (s sep : String) : List String :=
  (pySplitGo sep.data (s.data.length + 1) [] s.data).map (fun l => ⟨l⟩)

/-- Model of Python `s.startswith(pre)`. -/
def pyStartswith (s pre : String) : Bool :=
  pre.data.isPrefixOf s.data

/-- Model of Python `s.endswith(suffix)`. -/
def pyEndswith (s suff : String) : Bool :=
  suff.data.isSuffixOf s.data

/-- Contiguous-sublist check on character lists (Python `in` on strings). -/
def listContains (hay needle : List Char) : Bool :=
  needle.isPrefixOf hay ||
    match hay with
    | [] => false
    | _ :: t => listContains t needle

/-- Model of Python `needle in hay` for strings. -/
def pyIn (needle hay : String) : Bool :=
  listContains hay.data needle.data

/-- Model of Python `str.lower` on a single character (ASCII fragment, which
covers every scheme name and URL the client manipulates). -/
def pyCharLower (c : Char) : Char :=
  if 65 ≤ c.toNat ∧ c.toNat ≤ 90 then Char.ofNat (c.toNat + 32) else c

/-- Model of Python `s.lower()`. -/
def pyLower (s : String) : String :=
  ⟨s.data.map pyCharLower⟩

/-- Model of Python `"sep".join(xs)`. -/
def pyJoin (sep : String) : List String → String :=
  fun xs => ⟨(List.intersperse sep.data (xs.map String.data)).flatten⟩

/-- Model of Python `l[-1]` on a non-empty list of strings. -/
def pyLastElem (l : List String) : String :=
  l.getLastD ""

/-! ## MD5 (`hashlib.md5`)

`checksum_matches` streams the file through `hashlib.md5` in 4096-byte chunks;
incremental `update` hashes exactly the concatenation of the chunks, i.e. the
file's bytes, so the embedding computes MD5 over the whole byte list.
32-bit machine words are `Nat`s reduced modulo `2 ^ 32`. -/

/-- `2 ^ 32`, the word modulus of MD5. -/
def w32 : Nat := 4294967296

/-- The 64 MD5 sine-derived round constants. -/
def mdK : List Nat :=
  [0xd76aa478, 0xe8c7b756, 0x242070db, 0xc1bdceee,
   0xf57c0faf, 0x4787c62a, 0xa8304613, 0xfd469501,
   0x698098d8, 0x8b44f7af, 0xffff5bb1, 0x895cd7be,
   0x6b901122, 0xfd987193, 0xa679438e, 0x49b40821,
   0xf61e2562, 0xc040b340, 0x265e5a51, 0xe9b6c7aa,
   0xd62f105d, 0x02441453, 0xd8a1e681, 0xe7d3fbc8,
   0x21e1cde6, 0xc33707d6, 0xf4d50d87, 0x455a14ed,
   0xa9e3e905, 0xfcefa3f8, 0x676f02d9, 0x8d2a4c8a,
   0xfffa3942, 0x8771f681, 0x6d9d6122, 0xfde5380c,
   0xa4beea44, 0x4bdecfa9, 0xf6bb4b60, 0xbebfbc70,
   0x289b7ec6, 0xeaa127fa, 0xd4ef3085, 0x04881d05,
   0xd9d4d039, 0xe6db99e5, 0x1fa27cf8, 0xc4ac5665,
   0xf4292244, 0x432aff97, 0xab9423a7, 0xfc93a039,
   0x655b59c3, 0x8f0ccc92, 0xffeff47d, 0x85845dd1,
   0x6fa87e4f, 0xfe2ce6e0, 0xa3014314, 0x4e0811a1,
   0xf7537e82, 0xbd3af235, 0x2ad7d2bb, 0xeb86d391]

/-- The 64 MD5 per-round left-rotation amounts. -/
def mdS : List Nat :=
  [7, 12, 17, 22, 7, 12, 17, 22, 7, 12, 17, 22, 7, 12, 17, 22,
   5, 9, 14, 20, 5, 9, 14, 20, 5, 9, 14, 20, 5, 9, 14, 20,
   4, 11, 16, 23, 4, 11, 16, 23, 4, 11, 16, 23, 4, 11, 16, 23,
   6, 10, 15, 21, 6, 10, 15, 21, 6, 10, 15, 21, 6, 10, 15, 21]

/-- 32-bit left rotation on a `Nat` below `2 ^ 32`. -/
def rotl32 (x n : Nat) : Nat :=
  (x * 2 ^ n + x / 2 ^ (32 - n)) % w32

/-- The MD5 round mixing function (round selected by index `i`);
bitwise NOT on 32 bits is XOR with `0xffffffff`. -/
def mdF (i b c d : Nat) : Nat :=
  if i < 16 then (b &&& c) ||| ((b ^^^ 0xffffffff) &&& d)
  else if i < 32 then (d &&& b) ||| ((d ^^^ 0xffffffff) &&& c)
  else if i < 48 then b ^^^ c ^^^ d
  else c ^^^ (b ||| (d ^^^ 0xffffffff))

/-- The MD5 message-word schedule. -/
def mdG (i : Nat) : Nat :=
  if i < 16 then i
  else if i < 32 then (5 * i + 1) % 16
  else if i < 48 then (3 * i + 5) % 16
  else (7 * i) % 16

/-- One MD5 round on the state `(a, b, c, d)` with message block `M`. -/
def mdRound (M : List Nat) (st : Nat × Nat × Nat × Nat) (i : Nat) :
    Nat × Nat × Nat × Nat :=
  let (a, b, c, d) := st
  let f := (mdF i b c d + a + mdK.getD i 0 + M.getD (mdG i) 0) % w32
  (d, (b + rotl32 f (mdS.getD i 0)) % w32, b, c)

/-- Process one 16-word block: 64 rounds, then add into the running state. -/
def mdBlock (st : Nat × Nat × Nat × Nat) (M : List Nat) :
    Nat × Nat × Nat × Nat :=
  let r := (List.range 64).foldl (mdRound M) st
  ((st.1 + r.1) % w32, (st.2.1 + r.2.1) % w32,
   (st.2.2.1 + r.2.2.1) % w32, (st.2.2.2 + r.2.2.2) % w32)

/-- Little-endian packing of bytes into 32-bit words. -/
def toWords : List Nat → List Nat
  | b0 :: b1 :: b2 :: b3 :: rest =>
    (b0 + 256 * b1 + 65536 * b2 + 16777216 * b3) :: toWords rest
  | _ => []

/-- Split a word list into 16-word blocks. -/
def toBlocks : List Nat → List (List Nat)
  | w0 :: w1 :: w2 :: w3 :: w4 :: w5 :: w6 :: w7 ::
    w8 :: w9 :: w10 :: w11 :: w12 :: w13 :: w14 :: w15 :: rest =>
    [w0, w1, w2, w3, w4, w5, w6, w7, w8, w9, w10, w11, w12, w13, w14, w15] ::
      toBlocks rest
  | _ => []

/-- MD5 padding: a `0x80` byte, zeros to 56 mod 64, then the 64-bit
little-endian bit length. -/
def md5pad (msg : List Nat) : List Nat :=
  let len := msg.length
  msg ++ [128] ++ List.replicate ((119 - len % 64) % 64) 0 ++
    (List.range 8).map (fun i => len * 8 % 2 ^ 64 / 2 ^ (8 * i) % 256)

/-- The four MD5 state words of a byte message. -/
def md5words (msg : List Nat) : Nat × Nat × Nat × Nat :=
  (toBlocks (toWords (md5pad msg))).foldl mdBlock
    (0x67452301, 0xefcdab89, 0x98badcfe, 0x10325476)

/-- Lowercase hexadecimal digit characters, as produced by `hexdigest`. -/
def hexDigitChar (n : Nat) : Char :=
  "0123456789abcdef".data.getD n '0'

/-- Two lowercase hex digits of one byte. -/
def byte2hex (b : Nat) : List Char :=
  [hexDigitChar (b / 16), hexDigitChar (b % 16)]

/-- Hex rendering of one state word, little-endian byte order. -/
def word2hexChars (w : Nat) : List Char :=
  byte2hex (w % 256) ++ byte2hex (w / 256 % 256) ++
    byte2hex (w / 65536 % 256) ++ byte2hex (w / 16777216 % 256)

/-- Model of `hashlib.md5(bytes).hexdigest()`: the lowercase 32-character hex
digest of a byte list. -/
def md5Hex (msg : List Nat) : String :=
  ⟨word2hexChars (md5words msg).1 ++ word2hexChars (md5words msg).2.1 ++
    word2hexChars (md5words msg).2.2.1 ++ word2hexChars (md5words msg).2.2.2⟩

/-- Embedding of `checksum_matches(file_path, original_md5)`: the file's bytes
are streamed through MD5 and the lowercase hex digest is compared with `==`
against the candidate string. -/
def checksum_matches (file_bytes : List Nat) (original_md5 : String) : Bool :=
  md5Hex file_bytes == original_md5

/-! ## Endpoint selector (`get_prioritized_endpoint`)

The hard-coded demo-data rewrite indexes `elements[4]` after splitting the URL
on `/`; on a matching URL with fewer than five components that raises an
uncaught `IndexError`, modelled by `none`. -/

/-- Embedding of the inline demo-data rewrite (lines 78-81): when the URL is
on `s3://` and carries the `HMDEMO` tag, remap it to
`s3://{elements[2]}/DEMO/{elements[4]}/{"/".join(elements[-4:])}`.
`none` models the `IndexError` raised when `elements[4]` does not exist. -/
def fix_hmdemo (url : String) : Option String :=
  if pyIn "s3://" url && pyIn "HMDEMO" url then
    let elements := pySplit url "/"
    if 5 ≤ elements.length then
      some ("s3://" ++ elements.getD 2 "" ++ "/DEMO/" ++ elements.getD 4 "" ++
        "/" ++ pyJoin "/" (elements.drop (elements.length - 4)))
    else none
  else some url

/-- Inner loop of `get_prioritized_endpoint`: the URLs of `urls` matching one
priority `ep` (by `url.startswith(ep.lower())`), rewrite applied, in manifest
order. -/
def url_bucket (ep : String) : List String → Option (List String)
  | [] => some []
  | url :: rest =>
    if pyStartswith url (pyLower ep) then
      match fix_hmdemo url with
      | none => none
      | some u =>
        match url_bucket ep rest with
        | none => none
        | some t => some (u :: t)
    else url_bucket ep rest

/-- Outer loop of `get_prioritized_endpoint`: buckets appended in priority
order. -/
def ep_buckets (urls : List String) : List String → Option (List String)
  | [] => some []
  | ep :: rest =>
    match url_bucket ep urls with
    | none => none
    | some m =>
      match ep_buckets urls rest with
      | none => none
      | some t => some (m ++ t)

/-- The fallback priority order used when the caller supplies none
(line 71 of the source). -/
def default_eps : List String := ["HTTP", "S3"]

/-- The effective priority list: `priorities.split(',')`, replaced by
`default_eps` when its first element is the empty string. -/
def effective_eps (priorities : String) : List String :=
  let eps := pySplit priorities ","
  if eps.headD "" = "" then default_eps else eps

/-- Embedding of `get_prioritized_endpoint(manifest_urls, priorities)`:
split the CSV URL list, then for each priority in order append every URL whose
text starts with the lowercased priority name. `none` models the uncaught
`IndexError` of the demo-data rewrite. -/
def get_prioritized_endpoint (manifest_urls priorities : String) :
    Option (List String) :=
  ep_buckets (pySplit manifest_urls ",") (effective_eps priorities)

/-- Definition following the words of the spec (§4.1/§8): for each priority
bucket in order, the matching URLs in manifest order, rewrite applied.  Used
to state the grouped-by-bucket shape of `get_prioritized_endpoint`. -/
def selectEndpoints (manifest_urls priorities : String) : List String :=
  (effective_eps priorities).flatMap
    (fun ep =>
      ((pySplit manifest_urls ",").filter
        (fun u => pyStartswith u (pyLower ep))).filterMap fix_hmdemo)

/-! ## Resumable downloader and per-entry orchestration (`download_manifest`)

The network is a map from URL to `Option (List Nat)`: `some content` when
`urllib.request.urlopen` yields a connection serving `content`, `none` when it
raises.  Filesystem state local to one entry (target present, partial bytes)
and the outcomes of the two external collaborators (`untar_files_downloaded`,
`upload2bucket`, a tar library call and a subprocess) are supplied as an
environment record. -/

/-- One manifest row as consumed by `download_manifest`
(`mfile['id']`, `mfile['md5']`, `mfile['urls']`). -/
structure MFile where
  id : String
  md5 : String
  urls : String
deriving DecidableEq, Repr

/-- Per-entry environment: local filesystem state and collaborator
outcomes. -/
structure EntryWorld where
  /-- `os.path.exists(file_name)`: the finished target file is present. -/
  targetExists : Bool
  /-- Content of `file_name + ".partial"`, `none` when the file is absent. -/
  partialBytes : Option (List Nat)
  /-- The network: content served for a URL, `none` when `urlopen` raises. -/
  remote : String → Option (List Nat)
  /-- `untar_files_downloaded` returns without raising. -/
  untarOk : Bool
  /-- The collection it returns in that case (member lists per tar). -/
  untarGroups : List (List String)
  /-- `upload2bucket` returns without raising. -/
  uploadOk : Bool

/-- Observable outcome of processing one manifest entry. -/
structure EntryResult where
  /-- Codes appended to `failed_files` (1 no URL, 2 unreachable, 3 MD5). -/
  failedCodes : List Nat
  /-- The entry was skipped because the target file already exists. -/
  skipped : Bool
  /-- Content of the target file after the partial file is moved onto it. -/
  finalBytes : Option (List Nat)
  /-- Final value of the `current_byte` cursor. -/
  finalByteCount : Option Nat
  /-- The `file_size` fetched from the endpoint via Content-Length. -/
  fileSize : Option Nat
  /-- The group appended to `file_groups`, when extraction succeeded. -/
  fileGroup : Option (List (List String))
  /-- `clear_fastqs` ran before moving on to the next entry. -/
  cleared : Bool
  /-- The `file_name` computed on line 107, when the entry got that far. -/
  targetPath : Option String
deriving DecidableEq, Repr

/-- Embedding of `get_url_obj(url, http_header)` (lines 214-223): builds the
request with `urllib.request.Request(url)` and **never attaches**
`http_header`, so the connection always serves the content from byte 0; the
`http_header` argument is accepted and ignored exactly as in the source. -/
def get_url_obj (remote : String → Option (List Nat)) (url : String)
    (http_header : Nat) : Option (List Nat) :=
  remote url

/-- Embedding of `get_file_size(url)`: the Content-Length of a fresh
un-ranged request, i.e. the full content length. -/
def get_file_size (remote : String → Option (List Nat)) (url : String) : Nat :=
  ((remote url).getD []).length

/-- The `for url in url_list: try: res = get_url_obj(...)` loop: the first
URL that yields a connection, with the served content. -/
def try_urls (remote : String → Option (List Nat)) (http_header : Nat) :
    List String → Option (String × List Nat)
  | [] => none
  | url :: rest =>
    match get_url_obj remote url http_header with
    | some res => some (url, res)
    | none => try_urls remote http_header rest

/-- The `while True` transfer loop, fuel-indexed for structural recursion:
read at most `block_size` bytes, break on an empty read, otherwise append the
buffer to the file and advance `current_byte` by its length.  Returns the
bytes written and the final cursor. -/
def downloadLoopFuel (block_size : Nat) :
    Nat → List Nat → Nat → List Nat × Nat
  | 0, _, current => ([], current)
  | fuel + 1, stream, current =>
    let buffer := stream.take block_size
    if buffer.isEmpty then ([], current)
    else
      let p := downloadLoopFuel block_size fuel (stream.drop block_size)
        (current + buffer.length)
      (buffer ++ p.1, p.2)

/-- The transfer loop with enough fuel to drain the connection. -/
def download_loop (block_size : Nat) (stream : List Nat) (current : Nat) :
    List Nat × Nat :=
  downloadLoopFuel block_size (stream.length + 1) stream current

/-- The target path of line 107:
`"{0}/fastqs/{1}".format(destination, url_list[0].split('/')[-1])`. -/
def target_file_name (destination url0 : String) : String :=
  destination ++ "/fastqs/" ++ pyLastElem (pySplit url0 "/")

/-- Embedding of one iteration of the `for mfile in manifest` loop of
`download_manifest` (lines 97-198).  The outer `none` models the uncaught
`IndexError` of the demo-data rewrite. -/
def process_entry (destination : String) (mfile : MFile) (w : EntryWorld)
    (no_verify : Bool) (block_size : Nat) : Option EntryResult :=
  match get_prioritized_endpoint mfile.urls "" with
  | none => none
  | some url_list =>
    if url_list.isEmpty then
      some { failedCodes := [1], skipped := false, finalBytes := none,
             finalByteCount := none, fileSize := none, fileGroup := none,
             cleared := false, targetPath := none }
    else
    let file_name := target_file_name destination (url_list.headD "")
    if w.targetExists then
      some { failedCodes := [], skipped := true, finalBytes := none,
             finalByteCount := none, fileSize := none, fileGroup := none,
             cleared := false, targetPath := some file_name }
    else
      -- lines 117-125: resume cursor from the partial file's size; the
      -- Range header `bytes={current_byte}-` is built here and handed to
      -- `get_url_obj`, which ignores it.
      let current_byte := (w.partialBytes.getD []).length
      match try_urls w.remote current_byte url_list with
      | none =>
        some { failedCodes := [2], skipped := false, finalBytes := none,
               finalByteCount := none, fileSize := none, fileGroup := none,
               cleared := false, targetPath := some file_name }
      | some (url, res) =>
        let file_size := get_file_size w.remote url
        let dl := download_loop block_size res current_byte
        -- `open(tmp_file_name, 'ab')` appends to the partial bytes, then
        -- `shutil.move` makes that the target file's content.
        let finalFile := w.partialBytes.getD [] ++ dl.1
        let codes3 :=
          if no_verify then []
          else if checksum_matches finalFile mfile.md5 then [] else [3]
        if w.untarOk then
          if w.uploadOk then
            some { failedCodes := codes3, skipped := false,
                   finalBytes := some finalFile, finalByteCount := some dl.2,
                   fileSize := some file_size,
                   fileGroup := some w.untarGroups, cleared := true,
                   targetPath := some file_name }
          else
            -- upload raised: `continue` without reaching `clear_fastqs`.
            some { failedCodes := codes3, skipped := false,
                   finalBytes := some finalFile, finalByteCount := some dl.2,
                   fileSize := some file_size,
                   fileGroup := some w.untarGroups, cleared := false,
                   targetPath := some file_name }
        else
          -- untarring raised: `clear_fastqs(destination)` then `continue`.
          some { failedCodes := codes3, skipped := false,
                 finalBytes := some finalFile, finalByteCount := some dl.2,
                 fileSize := some file_size, fileGroup := none,
                 cleared := true, targetPath := some file_name }

/-- The target path an entry computes, as in lines 98-107 of the source. -/
def entry_target (destination : String) (mfile : MFile) : Option String :=
  (get_prioritized_endpoint mfile.urls "").map
    (fun url_list => target_file_name destination (url_list.headD ""))

/-! ## Archive extractor (`untar_file`) -/

/-- Outcomes of the tar-library calls inside `untar_file`. -/
structure TarBehavior where
  /-- `tarfile.open(path, "r")` succeeds. -/
  openOk : Bool
  /-- `tar.getmembers()` succeeds. -/
  membersOk : Bool
  /-- The member list it returns in that case. -/
  members : List String
  /-- `tar.extractall(tardir)` succeeds. -/
  extractOk : Bool

/-- Observable outcome of `untar_file`. -/
structure UntarOutcome where
  /-- `some l`: the call returns the member list `l` normally; `none`: an
  exception escapes the call (the `NameError` on the unbound `contents`). -/
  result : Option (List String)
  /-- `os.unlink(path)` ran, removing the archive. -/
  archiveRemoved : Bool
  /-- The `Problem untarring file` diagnostic was written to stderr. -/
  errReported : Bool
deriving DecidableEq, Repr

/-- Embedding of `untar_file(path)` (lines 277-292): the bare `except` writes
a diagnostic and falls through to `return contents`; when the failure struck
before `getmembers` finished, `contents` is unbound and the return itself
raises, otherwise the member list is returned as if extraction succeeded. -/
def untar_file (t : TarBehavior) : UntarOutcome :=
  if t.openOk then
    if t.membersOk then
      if t.extractOk then
        { result := some t.members, archiveRemoved := true,
          errReported := false }
      else
        { result := some t.members, archiveRemoved := false,
          errReported := true }
    else
      { result := none, archiveRemoved := false, errReported := true }
  else
    { result := none, archiveRemoved := false, errReported := true }

/-! ## Sample grouper (`create_descriptor`)

Members are identified by their `name`; a group is one tar's member list, a
group list is the collection of one manifest entry.  The Python locals
`r1, r2, i1` are initialised once per group list and the local `name` lives
for the whole function; both are threaded through an accumulator.  `none`
models the uncaught `NameError` when the incomplete-group branch reads `name`
before any member bound it. -/

/-- Mutable state of the `create_descriptor` loops. -/
structure DescAcc where
  r1 : Option String
  r2 : Option String
  i1 : Option String
  /-- The Python local `name` (function-scoped, may be unbound). -/
  name : Option String
  /-- Lines written to the sample descriptor file. -/
  lines : List String
  /-- The `names` lists written to stderr for incomplete groups. -/
  reports : List (List String)
deriving DecidableEq, Repr

/-- Body of the `for tarfile in group` classification loop (lines 310-322). -/
def classify_member (acc : DescAcc) (n : String) : DescAcc :=
  let acc := { acc with name := some n }
  if pyEndswith n ".fastq.gz" then
    if pyIn "_R1_" n then { acc with r1 := some n }
    else if pyIn "_R2_" n then { acc with r2 := some n }
    else if pyIn "_I1_" n then { acc with i1 := some n }
    else acc
  else acc

/-- Body of the `for group in group_list` loop (lines 310-338): classify the
members, then either write a sample line (when `r1`, `r2`, `i1` are all set)
or report the group as incomplete.  The incomplete branch re-runs
`for tarfile in group: name = tarfile.name` and then appends the single
final `name` to the fresh `names` list. -/
def process_group (acc : DescAcc) (group : List String) : Option DescAcc :=
  let acc := group.foldl classify_member acc
  if acc.r1.isSome && acc.r2.isSome && acc.i1.isSome then
    let r1 := acc.r1.getD ""
    let r2 := acc.r2.getD ""
    let i1 := acc.i1.getD ""
    let sample := (pySplit r1 "_R1_").headD ""
    let line := sample ++ "\t" ++ r1 ++ "\t" ++ r2 ++ "\t" ++ i1 ++ "\n"
    some { acc with lines := acc.lines ++ [line] }
  else
    let acc :=
      match group.getLast? with
      | some n => { acc with name := some n }
      | none => acc
    match acc.name with
    | none => none
    | some n => some { acc with reports := acc.reports ++ [[n]] }

/-- The `for group in group_list` loop. -/
def process_groups (acc : DescAcc) : List (List String) → Option DescAcc
  | [] => some acc
  | g :: gs =>
    match process_group acc g with
    | none => none
    | some acc2 => process_groups acc2 gs

/-- The `for group_list in file_groups` loop: `r1 = r2 = i1 = None` runs at
the top of each iteration; `name`, `lines` and `reports` persist. -/
def process_group_lists (acc : DescAcc) :
    List (List (List String)) → Option DescAcc
  | [] => some acc
  | gl :: gls =>
    match process_groups { acc with r1 := none, r2 := none, i1 := none } gl with
    | none => none
    | some acc2 => process_group_lists acc2 gls

/-- Embedding of `create_descriptor(file_groups, ...)` (lines 294-342):
the sample lines written to the descriptor file and the incomplete-group
name lists written to stderr. -/
def create_descriptor (file_groups : List (List (List String))) :
    Option (List String × List (List String)) :=
  (process_group_lists ⟨none, none, none, none, [], []⟩ file_groups).map
    (fun acc => (acc.lines, acc.reports))

theorem pySplit_comma_empty : pySplit "" "," = [""] := by decide

theorem pySplit_example : pySplit "a,b,,c" "," = ["a", "b", "", "c"] := by decide

theorem pySplit_url : pySplit "s3://HMDEMO" "/" = ["s3:", "", "HMDEMO"] := by decide

theorem pyLower_example : pyLower "HTTPs" = "https" := by decide

theorem pyJoin_example : pyJoin "/" ["a", "b", "c"] = "a/b/c" := by decide

theorem pyIn_example : pyIn "_R1_" "X_R1_1.fastq.gz" = true := by decide

theorem pyEndswith_example : pyEndswith "X_R1_1.fastq.gz" ".fastq.gz" = true := by decide

theorem untar_example :
    untar_file ⟨true, true, ["m"], true⟩ = ⟨some ["m"], true, false⟩ := by decide

/-! ## General lemmas -/

/-- With a positive block size and enough fuel, the transfer loop writes the
whole remaining stream and advances the cursor by its length. -/
theorem downloadLoopFuel_drains (bs : Nat) (hbs : 0 < bs) :
    ∀ (fuel : Nat) (stream : List Nat) (current : Nat),
      stream.length ≤ fuel →
      downloadLoopFuel bs fuel stream current =
        (stream, current + stream.length) := by
  intro fuel
  induction fuel with
  | zero =>
    intro stream current h
    have : stream = [] := List.length_eq_zero.mp (Nat.le_zero.mp h)
    subst this
    rfl
  | succ n ih =>
    intro stream current h
    cases stream with
    | nil => simp [downloadLoopFuel, List.take_nil]
    | cons b rest =>
      have hne : ((b :: rest).take bs).isEmpty = false := by
        cases bs with
        | zero => exact absurd hbs (by decide)
        | succ k => rfl
      rw [downloadLoopFuel]
      simp only [hne, Bool.false_eq_true, if_false]
      rw [ih ((b :: rest).drop bs) (current + ((b :: rest).take bs).length)
        (by
          rw [List.length_drop]
          have : 1 ≤ (b :: rest).length := by simp
          simp only [List.length_cons] at h ⊢
          omega)]
      refine Prod.ext ?_ ?_
      · simp [List.take_append_drop]
      · simp only [List.length_take, List.length_drop]
        have : (b :: rest).length = rest.length + 1 := rfl
        omega

/-- The transfer loop as called by `download_manifest`: the full content is
appended and the cursor ends at `current + stream.length`. -/
theorem download_loop_drains (bs : Nat) (hbs : 0 < bs) (stream : List Nat)
    (current : Nat) :
    download_loop bs stream current = (stream, current + stream.length) :=
  downloadLoopFuel_drains bs hbs (stream.length + 1) stream current
    (Nat.le_succ _)

/-- A string differing from `""` has a non-empty character list. -/
theorem data_ne_nil_of_ne_empty {s : String} (h : s ≠ "") : s.data ≠ [] := by
  intro hd
  apply h
  cases s
  simp only [String.ext_iff] at *
  exact hd

/-- `Char.ofNat` of a valid code point has that code point. -/
theorem charOfNat_toNat {n : Nat} (h : Nat.isValidChar n) :
    (Char.ofNat n).toNat = n := by
  unfold Char.ofNat
  rw [dif_pos h]
  rfl

/-- ASCII lowercasing never produces an uppercase letter, in particular
never `H`. -/
theorem pyCharLower_ne_H (c : Char) : pyCharLower c ≠ 'H' := by
  unfold pyCharLower
  by_cases h : 65 ≤ c.toNat ∧ c.toNat ≤ 90
  · rw [if_pos h]
    obtain ⟨h1, h2⟩ := h
    intro heq
    have hv : (Char.ofNat (c.toNat + 32)).toNat = c.toNat + 32 :=
      charOfNat_toNat (Or.inl (by omega))
    rw [heq] at hv
    have : ('H' : Char).toNat = 72 := by decide
    omega
  · rw [if_neg h]
    intro heq
    apply h
    rw [heq]
    exact ⟨by decide, by decide⟩

/-- Inner selector loop, characterized: when the demo rewrite is defined on
every URL, one bucket is the filtered URL list (in manifest order) with the
rewrite mapped over it. -/
theorem url_bucket_eq (ep : String) :
    ∀ urls : List String, (∀ u ∈ urls, (fix_hmdemo u).isSome) →
      url_bucket ep urls =
        some ((urls.filter
          (fun u => pyStartswith u (pyLower ep))).filterMap fix_hmdemo) := by
  intro urls
  induction urls with
  | nil => intro _; rfl
  | cons u rest ih =>
    intro h
    have hu : (fix_hmdemo u).isSome := h u (List.mem_cons_self u rest)
    have hrest : ∀ v ∈ rest, (fix_hmdemo v).isSome :=
      fun v hv => h v (List.mem_cons_of_mem u hv)
    obtain ⟨w, hw⟩ := Option.isSome_iff_exists.mp hu
    rw [url_bucket]
    cases hs : pyStartswith u (pyLower ep) with
    | true =>
      simp only [hs, if_true, hw, ih hrest]
      simp [List.filter_cons, hs, List.filterMap_cons, hw]
    | false =>
      simp only [hs, Bool.false_eq_true, if_false, ih hrest]
      simp [List.filter_cons, hs]

/-- Outer selector loop, characterized: the result is the buckets appended in
priority order. -/
theorem ep_buckets_eq (urls : List String)
    (h : ∀ u ∈ urls, (fix_hmdemo u).isSome) :
    ∀ eps : List String,
      ep_buckets urls eps =
        some (eps.flatMap (fun ep =>
          (urls.filter
            (fun u => pyStartswith u (pyLower ep))).filterMap fix_hmdemo)) := by
  intro eps
  induction eps with
  | nil => rfl
  | cons ep rest ih =>
    rw [ep_buckets, url_bucket_eq ep urls h, ih]
    simp [List.flatMap_cons]

/-- A non-empty priority name never matches the lone empty URL produced by
splitting an empty manifest URL list. -/
theorem url_bucket_empty_url (ep : String) (h : ep ≠ "") :
    url_bucket ep [""] = some [] := by
  have hd : ep.data ≠ [] := data_ne_nil_of_ne_empty h
  rw [url_bucket]
  have hs : pyStartswith "" (pyLower ep) = false := by
    unfold pyStartswith pyLower
    cases hdm : ep.data with
    | nil => exact absurd hdm hd
    | cons c cs => rfl
  simp only [hs, Bool.false_eq_true, if_false]
  rfl

/-- With every priority name non-empty, an empty manifest URL list yields an
empty selection. -/
theorem ep_buckets_empty_url :
    ∀ eps : List String, (∀ e ∈ eps, e ≠ "") →
      ep_buckets [""] eps = some [] := by
  intro eps
  induction eps with
  | nil => intro _; rfl
  | cons ep rest ih =>
    intro h
    rw [ep_buckets, url_bucket_empty_url ep (h ep (List.mem_cons_self ep rest)),
      ih (fun e he => h e (List.mem_cons_of_mem ep he))]
    rfl

/-- Left cancellation for string append. -/
theorem string_append_left_cancel {s t u : String} (h : s ++ t = s ++ u) :
    t = u := by
  have h2 : s.data ++ t.data = s.data ++ u.data := congrArg String.data h
  cases t; cases u
  simp only [String.ext_iff]
  exact List.append_cancel_left h2

/-! ## Concrete download environments used by the claim theorems -/

/-- A network with a single live HTTP endpoint serving the two bytes
`[0, 1]`. -/
def demoNet : String → Option (List Nat) :=
  fun u => if u = "http://h/x.tar" then some [0, 1] else none

/-- The entry environment after an interrupted first attempt: a partial file
holding the first byte `[0]` already exists. -/
def demoWorldResumed : EntryWorld :=
  { targetExists := false, partialBytes := some [0], remote := demoNet,
    untarOk := true, untarGroups := [], uploadOk := true }

/-- The same entry environment with no partial file (a fresh download). -/
def demoWorldFresh : EntryWorld :=
  { demoWorldResumed with partialBytes := none }

/-- The same entry environment with extraction succeeding and the upload
subprocess failing. -/
def demoWorldUploadFail : EntryWorld :=
  { demoWorldFresh with untarGroups := [["f"]], uploadOk := false }

/-- The manifest row pointing at the demo network's endpoint. -/
def demoMFile : MFile := ⟨"1", "ffffffffffffffffffffffffffffffff", "http://h/x.tar"⟩

/-! ## Claim theorems -/

/-- C1: the claim fails on the code and the code is the slip.  `get_url_obj`
documents its `http_header` argument as "HTTP range to pull from the file"
but builds `urllib.request.Request(url)` without attaching it, so a resumed
download with a partial file of size `k = 1` re-requests the content from
byte 0 and appends it after the partial bytes: the resumed result `[0, 0, 1]`
differs from the single uninterrupted download `[0, 1]` of the same remote
content. -/
theorem c1_resume_refetches_from_zero :
    ((process_entry "d" demoMFile demoWorldResumed true 1000000).bind
        EntryResult.finalBytes = some [0, 0, 1])
    ∧ ((process_entry "d" demoMFile demoWorldFresh true 1000000).bind
        EntryResult.finalBytes = some [0, 1])
    ∧ ([0, 0, 1] : List Nat) ≠ [0, 1] := by
  refine ⟨by decide, by decide, by decide⟩

/-- C3: the claim fails on the code, for the same slip as C1.  Resuming with
a partial file of size 1 over remote content of total size 2, the cursor
`current_byte` (initialized to the partial size and advanced by every block
written) ends at 3, strictly above the authoritative `file_size` 2 fetched
from the endpoint, violating `bytesReceived <= totalSize`. -/
theorem c3_cursor_exceeds_total :
    ((process_entry "d" demoMFile demoWorldResumed true 1000000).bind
        EntryResult.finalByteCount = some 3)
    ∧ ((process_entry "d" demoMFile demoWorldResumed true 1000000).bind
        EntryResult.fileSize = some 2)
    ∧ ¬ (3 ≤ 2) := by
  refine ⟨by decide, by decide, by decide⟩

/-- C2 counterexample: the code's comparison is case-sensitive.  The expected
digest written in uppercase hex equals the recomputed digest of the empty
file up to case (their `lower()` images coincide), so the claim demands
`true`, but `checksum_matches` compares `hexdigest()` with `==` and returns
`false`. -/
theorem c2_counterexample :
    checksum_matches [] "D41D8CD98F00B204E9800998ECF8427E" = false
    ∧ pyLower (md5Hex []) = pyLower "D41D8CD98F00B204E9800998ECF8427E" := by
  refine ⟨by decide, by decide⟩

/-- C2 amended: `checksum_matches` returns true iff the recomputed lowercase
hex MD5 digest of the file's exact bytes equals the expected string exactly
(case-sensitively); mutating the file flips the result to false whenever the
mutation changes the file's MD5 digest. -/
theorem c2_checksum_exact : ∀ (f : List Nat) (d : String),
    (checksum_matches f d = true ↔ md5Hex f = d)
    ∧ ∀ f2 : List Nat, md5Hex f2 ≠ md5Hex f →
        checksum_matches f2 (md5Hex f) = false := by
  intro f d
  constructor
  · unfold checksum_matches
    exact beq_iff_eq
  · intro f2 h
    unfold checksum_matches
    exact beq_eq_false_iff_ne.mpr h

/-- C2 witness: the digest of the empty file matches itself and the one-byte
file `[0x61]` (whose digest differs) fails against it. -/
theorem c2_checksum_exact_witness :
    checksum_matches [] (md5Hex []) = true
    ∧ checksum_matches [97] (md5Hex []) = false :=
  ⟨(c2_checksum_exact [] (md5Hex [])).1.mpr rfl,
   (c2_checksum_exact [] (md5Hex [])).2 [97] (by decide)⟩

/-- C5: the claim fails on the code and the code is the slip.  The locals
`r1, r2, i1` are initialized once per collection, not once per group, and the
completeness test is `is not None`, so after a first group containing only an
R1 file, a second group containing only R2 and I1 files emits a sample line
stitched together across the two groups — although no single group contains
one member of each role (checked by the second conjunct).  The code's own
diagnostic ("Group did not contain 1 each of R1, R2 and I1 files") shows the
per-group intent. -/
theorem c5_record_emitted_across_groups :
    create_descriptor [[["X_R1_1.fastq.gz"], ["Y_R2_1.fastq.gz", "Y_I1_1.fastq.gz"]]]
      = some (["X\tX_R1_1.fastq.gz\tY_R2_1.fastq.gz\tY_I1_1.fastq.gz\n"],
              [["X_R1_1.fastq.gz"]])
    ∧ ([["X_R1_1.fastq.gz"], ["Y_R2_1.fastq.gz", "Y_I1_1.fastq.gz"]].all
        (fun g => !(g.any (fun n => pyIn "_R1_" n) &&
                    g.any (fun n => pyIn "_R2_" n) &&
                    g.any (fun n => pyIn "_I1_" n)))) = true := by
  refine ⟨by decide, by decide⟩

/-- C6: the claim fails on the code and the code is the slip.  In the
incomplete-group branch, the loop `for tarfile in group: name = tarfile.name`
has `names.append(name)` indented outside its body, so the report lists only
the group's last member name: the incomplete two-member group below is
reported as a one-element list missing `X_R1_1.fastq.gz`. -/
theorem c6_incomplete_report_drops_names :
    create_descriptor [[["X_R1_1.fastq.gz", "X_R2_1.fastq.gz"]]]
      = some ([], [["X_R2_1.fastq.gz"]])
    ∧ (["X_R2_1.fastq.gz"] : List String) ≠ ["X_R1_1.fastq.gz", "X_R2_1.fastq.gz"]
    ∧ (["X_R2_1.fastq.gz"].contains "X_R1_1.fastq.gz") = false := by
  refine ⟨by decide, by decide, by decide⟩

/-- C7: the claim fails on the code and the code is the slip.  When
`tar.extractall` raises after `getmembers` succeeded, the bare `except`
writes a diagnostic and falls through to `return contents`: the member list
is returned as a normal result (no failure surfaces to the orchestrator,
which then reports successful extraction and uploads the partial content);
the archive is left in place, which is the one part the claim gets right. -/
theorem c7_extraction_error_swallowed :
    untar_file ⟨true, true, ["m1", "m2"], false⟩
      = ⟨some ["m1", "m2"], false, true⟩
    ∧ (some ["m1", "m2"] : Option (List String)) ≠ none := by
  refine ⟨by decide, by decide⟩

/-- C8: the claim fails on the code and the code is the slip.  On an upload
failure the handler runs `continue` before reaching `clear_fastqs`, so the
staging directory is not cleared before the next entry begins — unlike the
extraction-failure handler, which does clear it.  The entry below downloads
and extracts successfully (`fileGroup` present) and fails at upload. -/
theorem c8_no_clear_after_upload_failure :
    ((process_entry "d" demoMFile demoWorldUploadFail true 1000000).map
        EntryResult.cleared = some false)
    ∧ ((process_entry "d" demoMFile demoWorldUploadFail true 1000000).map
        EntryResult.fileGroup = some (some [["f"]])) := by
  refine ⟨by decide, by decide⟩

/-- C4 counterexample: the claim fails as universally stated.  With the
priority order `"x,"` (whose second name is empty, and every URL starts with
the empty string), the empty raw URL list yields the non-empty selection
`[""]`; and on a short `s3://...HMDEMO` URL the demo rewrite indexes past the
end of the split (`elements[4]`), raising an uncaught `IndexError` instead of
returning a grouped list. -/
theorem c4_counterexample :
    get_prioritized_endpoint "" "x," = some [""]
    ∧ some [""] ≠ some ([] : List String)
    ∧ get_prioritized_endpoint "s3://HMDEMO" "S3" = none := by
  refine ⟨by decide, by decide, by decide⟩

/-- C4 amended: whenever the demo-data rewrite is defined on every listed URL
(no `IndexError`), the selector returns exactly the URLs grouped by priority
bucket in bucket order with manifest order preserved inside each bucket
(`selectEndpoints`, the bucket-by-bucket form); when additionally every
priority name is non-empty, an empty raw URL list yields an empty result; and
when no priorities are supplied the default order ranks HTTP before S3. -/
theorem c4_selector_grouped (m p : String)
    (hok : ((pySplit m ",").all (fun u => (fix_hmdemo u).isSome)) = true) :
    get_prioritized_endpoint m p = some (selectEndpoints m p)
    ∧ ((effective_eps p).all (fun e => !(e == "")) = true →
        get_prioritized_endpoint "" p = some [])
    ∧ effective_eps "" = ["HTTP", "S3"] := by
  have hok2 : ∀ u ∈ pySplit m ",", (fix_hmdemo u).isSome :=
    fun u hu => List.all_eq_true.mp hok u hu
  refine ⟨?_, ?_, rfl⟩
  · unfold get_prioritized_endpoint selectEndpoints
    exact ep_buckets_eq _ hok2 _
  · intro hne
    unfold get_prioritized_endpoint
    have hsp : pySplit "" "," = [""] := by decide
    rw [hsp]
    apply ep_buckets_empty_url
    intro e he
    have h1 := List.all_eq_true.mp hne e he
    simp only [Bool.not_eq_eq_eq_not, Bool.not_true] at h1
    exact beq_eq_false_iff_ne.mp h1

/-- C4 witness: a mixed HTTP/S3 manifest with default priorities, and the
empty-input case under the default (non-empty) priority names. -/
theorem c4_selector_grouped_witness :
    get_prioritized_endpoint "http://a/x,s3://b/y" ""
      = some (selectEndpoints "http://a/x,s3://b/y" "")
    ∧ get_prioritized_endpoint "" "" = some [] :=
  ⟨(c4_selector_grouped "http://a/x,s3://b/y" "" (by decide)).1,
   (c4_selector_grouped "" "" (by decide)).2.1 (by decide)⟩

/-- C9 counterexample: two manifest entries with distinct unique ids whose
URLs share the basename `x.tar` compute the same target path (the path is
built from `url_list[0].split('/')[-1]`, never from the id). -/
theorem c9_counterexample :
    entry_target "d" ⟨"1", "m1", "http://a/x.tar"⟩ = some "d/fastqs/x.tar"
    ∧ entry_target "d" ⟨"2", "m2", "http://b/x.tar"⟩ = some "d/fastqs/x.tar"
    ∧ (MFile.mk "1" "m1" "http://a/x.tar").id
        ≠ (MFile.mk "2" "m2" "http://b/x.tar").id := by
  refine ⟨by decide, by decide, by decide⟩

/-- C9 amended: two entries compute the same target path exactly when the
final `/`-component of their first prioritized URL is the same; uniqueness of
manifest ids gives no exclusivity, since the id never enters the path. -/
theorem c9_target_collision_iff (d u v : String) :
    target_file_name d u = target_file_name d v ↔
      pyLastElem (pySplit u "/") = pyLastElem (pySplit v "/") := by
  constructor
  · intro h
    unfold target_file_name at h
    exact string_append_left_cancel h
  · intro h
    unfold target_file_name
    rw [h]

/-- C10: matching is `url.startswith(ep.lower())`.  With priorities
`HTTP,HTTPS`, the single `https://` URL matches both buckets and is returned
twice; a URL whose scheme is uppercase starts with `H`, which ASCII
lowercasing never produces, so it matches no non-empty priority name and the
default priorities select nothing. -/
theorem c10_scheme_match_is_textual :
    get_prioritized_endpoint "https://host/f" "HTTP,HTTPS"
      = some ["https://host/f", "https://host/f"]
    ∧ (∀ ep : String, ep ≠ "" → pyStartswith "HTTP://host/f" (pyLower ep) = false)
    ∧ get_prioritized_endpoint "HTTP://host/f" "" = some [] := by
  refine ⟨by decide, ?_, by decide⟩
  intro ep hne
  have hd : ep.data ≠ [] := data_ne_nil_of_ne_empty hne
  unfold pyStartswith pyLower
  cases hdm : ep.data with
  | nil => exact absurd hdm hd
  | cons c cs =>
    show ((pyCharLower c :: cs.map pyCharLower).isPrefixOf
      ('H' :: "TTP://host/f".data)) = false
    show (pyCharLower c == 'H'
      && (cs.map pyCharLower).isPrefixOf "TTP://host/f".data) = false
    rw [beq_eq_false_iff_ne.mpr (pyCharLower_ne_H c)]
    rfl

/-- C10 witness: the non-empty priority name `S3` does not match the
uppercase-scheme URL. -/
theorem c10_scheme_match_is_textual_witness :
    pyStartswith "HTTP://host/f" (pyLower "S3") = false :=
  c10_scheme_match_is_textual.2.1 "S3" (by decide)
